import Mathlib

/-!
Verification of the Konsultabot mobile client's session/auth-bootstrap flow
and chat-session bookkeeping, as a shallow embedding of the JavaScript
source (`src/context/AuthContext.js`, `src/services/apiService.js`,
`src/screens/auth/RegisterScreen.js`, and the chat screen).

Network calls, the key-value credential store and the host `JSON.parse`
are external collaborators; their outcomes are passed to the embedded
operations as explicit environment values, and every state they touch
(in-memory session state, the credential store, the API service's
in-memory auth token) is carried in an explicit world record.
-/

namespace Konsultabot

/-- JS truthiness of a `string | null` value: `null` and `""` are falsy.
Used wherever the source tests a stored string with `if (x)` / `if (!x)`. -/
def jsTruthy : Option String → Bool
  | none => false
  | some s => !s.isEmpty

/-- An opaque user record (the client never inspects its fields). -/
structure UserRec where
  data : String
deriving DecidableEq, Repr

/-- `JSON.stringify` of an opaque user record. -/
def serializeUser (u : UserRec) : String := u.data

/-- The part of an HTTP error the client reads: `error.response?.status`
and `error.response?.data?.message`. -/
structure RespInfo where
  status : Nat
  message : Option String
deriving DecidableEq, Repr

/-- Outcome of an awaited axios call, as the client observes it:
a resolved response with its status, or a rejection carrying an optional
response (`none` models a network error / timeout with no response). -/
inductive HttpOutcome where
  | success (status : Nat)
  | failure (response : Option RespInfo)
deriving DecidableEq, Repr

/-- The credential store: two named string slots (`authToken`, `userData`),
backed by `localStorage` on web or `SecureStore` on native. The backend
choice does not change the visible get/set/delete behaviour, so a single
key-value record models both. -/
structure CredStore where
  authToken : Option String
  userData : Option String
deriving DecidableEq, Repr

/-- Store with both entries deleted. -/
def emptyStore : CredStore := ⟨none, none⟩

/-- In-memory session state of `AuthProvider`: the `user`, `token` and
`isLoading` React state cells. -/
structure SessionState where
  user : Option UserRec
  token : Option String
  isLoading : Bool
deriving DecidableEq, Repr

/-- Everything the auth flow can read or write: the provider's session
state, the credential store, and the API service's in-memory auth token
(`apiService.authToken`, set via `setAuthToken`). -/
structure AuthWorld where
  session : SessionState
  store : CredStore
  apiToken : Option String
deriving DecidableEq, Repr

/-- The response interceptor of `ApiService`: on a rejected call whose
response has status 401 it clears the in-memory auth token; every other
outcome leaves the world unchanged. -/
def interceptResult (w : AuthWorld) (o : HttpOutcome) : AuthWorld :=
  match o with
  | .failure (some r) => if r.status = 401 then { w with apiToken := none } else w
  | _ => w

/-- `clearStoredAuth`: deletes both credential-store entries. -/
def clearStoredAuth (w : AuthWorld) : AuthWorld := { w with store := emptyStore }

/-- Environment of one bootstrap run: the outcome of the awaited
`apiService.getProfile()` call, and the outcome of the host `JSON.parse`
applied to the stored user string (`none` models a parse exception). -/
structure BootEnv where
  profile : HttpOutcome
  parsedUser : Option UserRec
deriving DecidableEq, Repr

/-- `validateAndSetAuth(storedToken, storedUser)`: assigns the stored token
to the API service, awaits `getProfile()` (which runs the response
interceptor), and on a 200 status sets the token and then the parsed user
into session state; any non-200 status or thrown error (including a
`JSON.parse` failure, which is caught after the token cell was already
set) clears the credential store and returns `false`. -/
def validateAndSetAuth (w : AuthWorld) (storedToken storedUser : String) (env : BootEnv) :
    AuthWorld × Bool :=
  let _ := storedUser
  let w1 := { w with apiToken := some storedToken }
  let w2 := interceptResult w1 env.profile
  match env.profile with
  | .success status =>
    if status = 200 then
      let w3 := { w2 with session := { w2.session with token := some storedToken } }
      match env.parsedUser with
      | some u => ({ w3 with session := { w3.session with user := some u } }, true)
      | none => (clearStoredAuth w3, false)
    else
      (clearStoredAuth w2, false)
  | .failure _ => (clearStoredAuth w2, false)

/-- `loadStoredAuth`: reads both store entries; when both are truthy it
runs `validateAndSetAuth`; in all cases it finally sets `isLoading` to
`false`. -/
def loadStoredAuth (w : AuthWorld) (env : BootEnv) : AuthWorld :=
  let w1 :=
    match w.store.authToken, w.store.userData with
    | some t, some u =>
        if !t.isEmpty && !u.isEmpty then (validateAndSetAuth w t u env).1 else w
    | _, _ => w
  { w1 with session := { w1.session with isLoading := false } }

/-- World at provider mount: `user`/`token` null, `isLoading` true, the
API service constructed with no auth token, and whatever the credential
store holds. -/
def initialWorld (store : CredStore) : AuthWorld :=
  { session := { user := none, token := none, isLoading := true }
    store := store
    apiToken := none }

/-- One full session bootstrap from a given store content. -/
def bootstrap (store : CredStore) (env : BootEnv) : AuthWorld :=
  loadStoredAuth (initialWorld store) env

/-- Profile-fetch validation fails: the call threw, or resolved with a
status other than 200. -/
def profileValidationFails : HttpOutcome → Bool
  | .success status => status != 200
  | .failure _ => true

/-- Claim C1: whenever bootstrap finds a stored token and a stored user
record (both truthy) but profile-fetch validation fails — the call throws
or returns a non-200 status — the credential store ends cleared, session
state ends unauthenticated (user and token both null), and bootstrap
terminates with `isLoading` false. The embedding is a total function, so
the failure is never fatal. -/
theorem bootstrap_validation_failure_clears (store : CredStore) (env : BootEnv)
    (t u : String) (ht : store.authToken = some t) (hu : store.userData = some u)
    (htne : t.isEmpty = false) (hune : u.isEmpty = false)
    (hfail : profileValidationFails env.profile = true) :
    (bootstrap store env).store = emptyStore ∧
    (bootstrap store env).session.user = none ∧
    (bootstrap store env).session.token = none ∧
    (bootstrap store env).session.isLoading = false := by
  unfold bootstrap loadStoredAuth initialWorld
  rw [ht, hu]
  simp only [htne, hune]
  cases hp : env.profile with
  | success status =>
    rw [hp] at hfail
    have hs : status ≠ 200 := by simpa [profileValidationFails] using hfail
    simp [validateAndSetAuth, hp, interceptResult, clearStoredAuth, emptyStore, hs]
  | failure r =>
    cases r with
    | none => simp [validateAndSetAuth, hp, interceptResult, clearStoredAuth, emptyStore]
    | some ri =>
      by_cases h4 : ri.status = 401 <;>
        simp [validateAndSetAuth, hp, interceptResult, clearStoredAuth, emptyStore, h4]

/-- Witness for C1 at a concrete input: a stored pair and a network error
during validation. -/
theorem bootstrap_validation_failure_clears_witness :
    ((⟨some "tok", some "usr"⟩ : CredStore).authToken = some "tok" ∧
     profileValidationFails (BootEnv.mk (.failure none) none).profile = true) ∧
    ((bootstrap ⟨some "tok", some "usr"⟩ ⟨.failure none, none⟩).store = emptyStore ∧
     (bootstrap ⟨some "tok", some "usr"⟩ ⟨.failure none, none⟩).session.user = none ∧
     (bootstrap ⟨some "tok", some "usr"⟩ ⟨.failure none, none⟩).session.token = none ∧
     (bootstrap ⟨some "tok", some "usr"⟩ ⟨.failure none, none⟩).session.isLoading = false) :=
  ⟨⟨rfl, rfl⟩,
   bootstrap_validation_failure_clears ⟨some "tok", some "usr"⟩ ⟨.failure none, none⟩
     "tok" "usr" rfl rfl rfl rfl rfl⟩

/-- Claim C2 counterexample: with a stored token `"tok"`, a stored user
string that is not valid JSON (so the host `JSON.parse` throws), and a
200 profile response, bootstrap sets the token cell before the parse
throws and never sets the user cell: the token alone is restored, while
the store is cleared. -/
theorem bootstrap_partial_restore_cex :
    (bootstrap ⟨some "tok", some "notjson"⟩ ⟨.success 200, none⟩).session.token = some "tok" ∧
    (bootstrap ⟨some "tok", some "notjson"⟩ ⟨.success 200, none⟩).session.user = none ∧
    (bootstrap ⟨some "tok", some "notjson"⟩ ⟨.success 200, none⟩).store = emptyStore := by
  decide

/-- Claim C2 (amended): for every credential-store content, provided the
stored user record deserializes successfully (the `JSON.parse` outcome is
`some`), bootstrap either restores both the token and the user record
into session state or restores neither; in particular, if either stored
value is absent or empty, session state is left empty. -/
theorem bootstrap_restores_both_or_neither (store : CredStore) (env : BootEnv)
    (hp : env.parsedUser.isSome = true) :
    ((bootstrap store env).session.token = none ∧
     (bootstrap store env).session.user = none) ∨
    ((bootstrap store env).session.token.isSome = true ∧
     (bootstrap store env).session.user.isSome = true) := by
  obtain ⟨pu, hpu⟩ := Option.isSome_iff_exists.mp hp
  unfold bootstrap loadStoredAuth initialWorld
  cases ht : store.authToken with
  | none => left; simp
  | some t =>
    cases hu : store.userData with
    | none => left; simp
    | some u =>
      by_cases hte : t.isEmpty <;> by_cases hue : u.isEmpty
      · left; simp [hte, hue]
      · left; simp [hte, hue]
      · left; simp [hte, hue]
      · simp only [hte, hue, Bool.not_false, Bool.and_self, if_true]
        cases hpr : env.profile with
        | success status =>
          by_cases hs : status = 200
          · right
            simp [validateAndSetAuth, hpr, hs, hpu, interceptResult]
          · left
            simp [validateAndSetAuth, hpr, hs, interceptResult, clearStoredAuth]
        | failure r =>
          left
          cases r with
          | none => simp [validateAndSetAuth, hpr, interceptResult, clearStoredAuth]
          | some ri =>
            by_cases h4 : ri.status = 401 <;>
              simp [validateAndSetAuth, hpr, interceptResult, clearStoredAuth, h4]

/-- Witness for the amended C2 at a concrete input: both values stored,
validation succeeds, the record parses — both cells are restored. -/
theorem bootstrap_restores_both_or_neither_witness :
    ((BootEnv.mk (.success 200) (some ⟨"usr"⟩)).parsedUser.isSome = true) ∧
    (((bootstrap ⟨some "tok", some "usr"⟩ ⟨.success 200, some ⟨"usr"⟩⟩).session.token = none ∧
      (bootstrap ⟨some "tok", some "usr"⟩ ⟨.success 200, some ⟨"usr"⟩⟩).session.user = none) ∨
     ((bootstrap ⟨some "tok", some "usr"⟩ ⟨.success 200, some ⟨"usr"⟩⟩).session.token.isSome = true ∧
      (bootstrap ⟨some "tok", some "usr"⟩ ⟨.success 200, some ⟨"usr"⟩⟩).session.user.isSome = true)) :=
  ⟨rfl, bootstrap_restores_both_or_neither ⟨some "tok", some "usr"⟩ ⟨.success 200, some ⟨"usr"⟩⟩ rfl⟩

/-- `logout`: awaits `apiService.logout()` (best-effort; its outcome is
observed only by the response interceptor), then unconditionally deletes
both store entries, nulls the session token and user, and nulls the API
service's auth token. -/
def logout (w : AuthWorld) (o : HttpOutcome) : AuthWorld :=
  let w1 := interceptResult w o
  { w1 with
    store := emptyStore
    session := { w1.session with token := none, user := none }
    apiToken := none }

/-- The response interceptor can only change the API service's in-memory
auth token; session state and the credential store are untouched. -/
theorem interceptResult_frame (w : AuthWorld) (o : HttpOutcome) :
    (interceptResult w o).session = w.session ∧ (interceptResult w o).store = w.store := by
  cases o with
  | success status => exact ⟨rfl, rfl⟩
  | failure r =>
    cases r with
    | none => exact ⟨rfl, rfl⟩
    | some ri => by_cases h : ri.status = 401 <;> simp [interceptResult, h]

/-- Claim C3: for every outcome of the logout network call, logout ends
with the credential store cleared, session user and token null, and the
API service's auth token null; the post-state does not depend on the
network outcome at all. -/
theorem logout_unconditional_clear (w : AuthWorld) (o o' : HttpOutcome) :
    (logout w o).store = emptyStore ∧
    (logout w o).session.user = none ∧
    (logout w o).session.token = none ∧
    (logout w o).apiToken = none ∧
    logout w o = logout w o' := by
  refine ⟨rfl, rfl, rfl, rfl, ?_⟩
  simp only [logout]
  rw [(interceptResult_frame w o).1, (interceptResult_frame w o').1]

/-- Structured result returned by login / register / update-profile. -/
structure OpResult where
  success : Bool
  error : Option String
deriving DecidableEq, Repr

/-- Outcome of an awaited login or register call: a resolved response
whose `data` carries `{ token, user }`, or a rejection. -/
inductive AuthOutcome where
  | ok (token : String) (user : UserRec)
  | err (response : Option RespInfo)
deriving DecidableEq, Repr

/-- Outcome of an awaited update-profile call: a resolved response whose
`data` carries `{ user }`, or a rejection. -/
inductive UpdateOutcome where
  | ok (user : UserRec)
  | err (response : Option RespInfo)
deriving DecidableEq, Repr

/-- The error branch of the interceptor alone (a rejected call): clears
the in-memory auth token exactly when the response status is 401. -/
def interceptErr (w : AuthWorld) (response : Option RespInfo) : AuthWorld :=
  interceptResult w (.failure response)

/-- JS `x || fallback` on an optional string: the fallback is used when
the value is absent or empty (falsy). -/
def jsOr (v : Option String) (fallback : String) : String :=
  match v with
  | some s => if s.isEmpty then fallback else s
  | none => fallback

/-- `login(email, password)`: on success stores the returned token/user
pair, sets both session cells and the API service token, and returns
`{success: true}`; on failure returns
`{success: false, error: error.response?.data?.message || 'Login failed'}`
without touching session state or the store. -/
def login (w : AuthWorld) (o : AuthOutcome) : AuthWorld × OpResult :=
  match o with
  | .ok authToken userData =>
      ({ w with
          store := ⟨some authToken, some (serializeUser userData)⟩
          session := { w.session with token := some authToken, user := some userData }
          apiToken := some authToken },
       { success := true, error := none })
  | .err response =>
      (interceptErr w response,
       { success := false
         error := some (jsOr (response.bind RespInfo.message) "Login failed") })

/-- `register(userData)`: same shape as `login`, with the
`'Registration failed'` fallback message. -/
def register (w : AuthWorld) (o : AuthOutcome) : AuthWorld × OpResult :=
  match o with
  | .ok authToken newUser =>
      ({ w with
          store := ⟨some authToken, some (serializeUser newUser)⟩
          session := { w.session with token := some authToken, user := some newUser }
          apiToken := some authToken },
       { success := true, error := none })
  | .err response =>
      (interceptErr w response,
       { success := false
         error := some (jsOr (response.bind RespInfo.message) "Registration failed") })

/-- `updateProfile(profileData)`: on success stores the returned user
record and sets the session user cell (token untouched); on failure
returns the structured error with the `'Profile update failed'`
fallback. -/
def updateProfile (w : AuthWorld) (o : UpdateOutcome) : AuthWorld × OpResult :=
  match o with
  | .ok updatedUser =>
      ({ w with
          store := { w.store with userData := some (serializeUser updatedUser) }
          session := { w.session with user := some updatedUser } },
       { success := true, error := none })
  | .err response =>
      (interceptErr w response,
       { success := false
         error := some (jsOr (response.bind RespInfo.message) "Profile update failed") })

/-- The `message` field of the server error payload, when the response
and the field exist. -/
def serverMessage (response : Option RespInfo) : Option String :=
  response.bind RespInfo.message

/-- The server error payload carries a usable (present and non-empty)
message. -/
def usableServerMessage (response : Option RespInfo) : Bool :=
  match serverMessage response with
  | some m => !m.isEmpty
  | none => false

/-- On a usable server message `jsOr` returns it, otherwise the fallback. -/
theorem jsOr_serverMessage (response : Option RespInfo) (fb : String) :
    (usableServerMessage response = true →
      some (jsOr (response.bind RespInfo.message) fb) = serverMessage response) ∧
    (usableServerMessage response = false →
      jsOr (response.bind RespInfo.message) fb = fb) := by
  cases response with
  | none => simp [usableServerMessage, serverMessage, jsOr]
  | some r =>
    cases hm : r.message with
    | none => simp [usableServerMessage, serverMessage, jsOr, hm]
    | some m =>
      by_cases he : m.isEmpty <;>
        simp [usableServerMessage, serverMessage, jsOr, hm, he]

/-- Claim C8: whenever the network call of login, register or
update-profile fails, the operation returns `{success: false, error}`
where `error` is the server payload's `message` field when that is
present (and non-empty, since an empty JS string is falsy and falls
through `||`), and the operation's generic fallback otherwise; session
state and the credential store are left unchanged. -/
theorem auth_op_failure_structured (w : AuthWorld) (response : Option RespInfo) :
    ((login w (.err response)).1.session = w.session ∧
     (login w (.err response)).1.store = w.store ∧
     (login w (.err response)).2.success = false ∧
     (usableServerMessage response = true →
        (login w (.err response)).2.error = serverMessage response) ∧
     (usableServerMessage response = false →
        (login w (.err response)).2.error = some "Login failed")) ∧
    ((register w (.err response)).1.session = w.session ∧
     (register w (.err response)).1.store = w.store ∧
     (register w (.err response)).2.success = false ∧
     (usableServerMessage response = true →
        (register w (.err response)).2.error = serverMessage response) ∧
     (usableServerMessage response = false →
        (register w (.err response)).2.error = some "Registration failed")) ∧
    ((updateProfile w (.err response)).1.session = w.session ∧
     (updateProfile w (.err response)).1.store = w.store ∧
     (updateProfile w (.err response)).2.success = false ∧
     (usableServerMessage response = true →
        (updateProfile w (.err response)).2.error = serverMessage response) ∧
     (usableServerMessage response = false →
        (updateProfile w (.err response)).2.error = some "Profile update failed")) := by
  have hfr := interceptResult_frame w (.failure response)
  refine ⟨⟨hfr.1, hfr.2, rfl, ?_, ?_⟩, ⟨hfr.1, hfr.2, rfl, ?_, ?_⟩, ⟨hfr.1, hfr.2, rfl, ?_, ?_⟩⟩
  · intro h; exact (jsOr_serverMessage response "Login failed").1 h
  · intro h; exact congrArg some ((jsOr_serverMessage response "Login failed").2 h)
  · intro h; exact (jsOr_serverMessage response "Registration failed").1 h
  · intro h; exact congrArg some ((jsOr_serverMessage response "Registration failed").2 h)
  · intro h; exact (jsOr_serverMessage response "Profile update failed").1 h
  · intro h; exact congrArg some ((jsOr_serverMessage response "Profile update failed").2 h)

/-- Witness for C8 at concrete inputs: a 400 response with a message
surfaces that message; a network error with no response surfaces the
fallback. -/
theorem auth_op_failure_structured_witness :
    (usableServerMessage (some ⟨400, some "Invalid credentials"⟩) = true ∧
     (login (initialWorld emptyStore) (.err (some ⟨400, some "Invalid credentials"⟩))).2.error
        = serverMessage (some ⟨400, some "Invalid credentials"⟩)) ∧
    (usableServerMessage none = false ∧
     (register (initialWorld emptyStore) (.err none)).2.error = some "Registration failed") :=
  ⟨⟨rfl, ((auth_op_failure_structured (initialWorld emptyStore)
            (some ⟨400, some "Invalid credentials"⟩)).1.2.2.2.1 rfl)⟩,
   ⟨rfl, ((auth_op_failure_structured (initialWorld emptyStore) none).2.1.2.2.2.2 rfl)⟩⟩

/-- `pat` occurs at the start of `cs` (character-list version of the JS
`String.prototype.startsWith`). -/
def charsStartWith : List Char → List Char → Bool
  | [], _ => true
  | _ :: _, [] => false
  | p :: ps, c :: cs => p == c && charsStartWith ps cs

/-- `pat` occurs somewhere in `cs` as a contiguous run. -/
def charsContain (pat : List Char) : List Char → Bool
  | [] => charsStartWith pat []
  | c :: cs => charsStartWith pat (c :: cs) || charsContain pat cs

/-- JS `s.includes(pat)`: substring containment. -/
def strIncludes (s pat : String) : Bool := charsContain pat.data s.data

/-- JS `s.toLowerCase()` (ASCII case folding, per character). Defined on
the character list so the kernel can evaluate it. -/
def strToLower (s : String) : String := String.mk (s.data.map Char.toLower)

/-- JS `s.endsWith(pat)`. Used only to state the spec's "ends in the
required institutional domain" side of the domain-check claim; the source
itself uses `includes`. -/
def strEndsWith (s pat : String) : Bool := charsStartWith pat.data.reverse s.data.reverse

/-- The registration form's fields, all plain strings. -/
structure RegForm where
  student_id : String
  email : String
  password : String
  password_confirm : String
  first_name : String
  last_name : String
  course : String
  year_level : String
deriving DecidableEq, Repr

/-- `validateForm` of the register screen: requires the six mandatory
fields to be truthy, the two passwords to coincide, the password to have
at least 6 characters, and the lowercased email to *contain* (JS
`includes`) `@evsu.edu.ph` or `@student.evsu.edu.ph`. -/
def validateForm (f : RegForm) : Bool :=
  if f.student_id.isEmpty || f.email.isEmpty || f.password.isEmpty ||
      f.password_confirm.isEmpty || f.first_name.isEmpty || f.last_name.isEmpty then
    false
  else if f.password != f.password_confirm then
    false
  else if f.password.length < 6 then
    false
  else if !strIncludes (strToLower f.email) "@evsu.edu.ph" &&
          !strIncludes (strToLower f.email) "@student.evsu.edu.ph" then
    false
  else
    true

/-- `handleRegister` invokes the network-calling `register` operation
exactly when `validateForm` passes (otherwise it returns before touching
any state). -/
def handleRegisterCallsNetwork (f : RegForm) : Bool := validateForm f

/-- `handleLogin` of the login screen: returns early when email or
password is falsy, otherwise invokes the network-calling `login`
operation. The login screen has no password-confirmation field. -/
def handleLoginCallsNetwork (email password : String) : Bool :=
  !email.isEmpty && !password.isEmpty

/-- A registration form whose email does not end in either accepted
institutional domain but contains one as a proper substring. -/
def domainCexForm : RegForm :=
  { student_id := "2020-00123"
    email := "a@evsu.edu.ph.evil.com"
    password := "secret1"
    password_confirm := "secret1"
    first_name := "A"
    last_name := "B"
    course := ""
    year_level := "" }

/-- Claim C6 counterexample: the form `domainCexForm` has an email that
ends in neither accepted institutional domain, yet submitting it passes
validation and invokes the register network call, because the source
checks `includes` rather than `endsWith`. -/
theorem register_domain_gate_cex :
    strEndsWith (strToLower domainCexForm.email) "@evsu.edu.ph" = false ∧
    strEndsWith (strToLower domainCexForm.email) "@student.evsu.edu.ph" = false ∧
    handleRegisterCallsNetwork domainCexForm = true := by
  decide

/-- Claim C6 (amended): for every registration form whose lowercased
email contains neither `@evsu.edu.ph` nor `@student.evsu.edu.ph` as a
substring, submitting the registration is rejected client-side and the
register operation is never invoked. -/
theorem register_domain_gate (f : RegForm)
    (h1 : strIncludes (strToLower f.email) "@evsu.edu.ph" = false)
    (h2 : strIncludes (strToLower f.email) "@student.evsu.edu.ph" = false) :
    handleRegisterCallsNetwork f = false := by
  unfold handleRegisterCallsNetwork validateForm
  rw [h1, h2]
  split
  · rfl
  · split
    · rfl
    · split
      · rfl
      · simp

/-- Witness for the amended C6: a well-formed form with a non-EVSU email
issues no network call. -/
theorem register_domain_gate_witness :
    (strIncludes (strToLower "a@gmail.com") "@evsu.edu.ph" = false ∧
     strIncludes (strToLower "a@gmail.com") "@student.evsu.edu.ph" = false) ∧
    handleRegisterCallsNetwork
      ⟨"2020-1", "a@gmail.com", "secret1", "secret1", "A", "B", "", ""⟩ = false :=
  ⟨⟨by decide, by decide⟩,
   register_domain_gate ⟨"2020-1", "a@gmail.com", "secret1", "secret1", "A", "B", "", ""⟩
     (by decide) (by decide)⟩

/-- Claim C7 counterexample: the claim "for every login attempt in which
the password and its confirmation do not match, no network call is
issued" is false on the code: the login flow reads no confirmation value
at all, so a login attempt with non-empty email and password issues the
network call whatever an accompanying confirmation value is. -/
theorem login_mismatch_cex :
    ¬ (∀ email password confirmValue : String,
        password ≠ confirmValue → handleLoginCallsNetwork email password = false) := by
  intro h
  have h1 := h "a@evsu.edu.ph" "secret1" "different" (by decide)
  have h2 : handleLoginCallsNetwork "a@evsu.edu.ph" "secret1" = true := by decide
  rw [h1] at h2
  exact Bool.false_ne_true h2

/-- Claim C7 (amended): the login flow has no password-confirmation
check — it issues its network call whenever email and password are both
non-empty, regardless of any confirmation value; the mismatch gate lives
in the registration flow, where a form with differing password and
confirmation never invokes the register operation. -/
theorem login_no_confirmation_check (f : RegForm) (email password : String)
    (hne : f.password ≠ f.password_confirm)
    (he : email.isEmpty = false) (hp : password.isEmpty = false) :
    handleRegisterCallsNetwork f = false ∧
    handleLoginCallsNetwork email password = true := by
  constructor
  · unfold handleRegisterCallsNetwork validateForm
    split
    · rfl
    · have hb : (f.password != f.password_confirm) = true := bne_iff_ne.mpr hne
      simp [hb]
  · unfold handleLoginCallsNetwork
    rw [he, hp]
    rfl

/-- Witness for the amended C7 at concrete inputs. -/
theorem login_no_confirmation_check_witness :
    (("secret1" : String) ≠ "secret2" ∧
     ("a@evsu.edu.ph" : String).isEmpty = false ∧ ("secret1" : String).isEmpty = false) ∧
    (handleRegisterCallsNetwork
        ⟨"2020-1", "a@evsu.edu.ph", "secret1", "secret2", "A", "B", "", ""⟩ = false ∧
     handleLoginCallsNetwork "a@evsu.edu.ph" "secret1" = true) :=
  ⟨⟨by decide, by decide, by decide⟩,
   login_no_confirmation_check
     ⟨"2020-1", "a@evsu.edu.ph", "secret1", "secret2", "A", "B", "", ""⟩
     "a@evsu.edu.ph" "secret1" (by decide) (by decide) (by decide)⟩

/-- Digits of `n` in base 10, most significant first, as characters; the
first argument is structural fuel (`n` itself is always enough). -/
def natDecAux : Nat → Nat → List Char
  | 0, _ => []
  | _ + 1, 0 => []
  | fuel + 1, n + 1 => natDecAux fuel ((n + 1) / 10) ++ [Nat.digitChar ((n + 1) % 10)]

/-- JS `Number.prototype.toString()` on a non-negative integer: its
decimal representation. Message ids in the chat screen are produced this
way from `Date.now()` values. -/
def natDecimal (n : Nat) : String :=
  if n = 0 then "0" else String.mk (natDecAux n n)

/-- Numeric value of a decimal digit character. -/
def digitVal (c : Char) : Nat := c.toNat - 48

/-- Decimal decoding, a left inverse of `natDecimal`. -/
def decodeDecimal (s : String) : Nat :=
  s.data.foldl (fun acc c => acc * 10 + digitVal c) 0

theorem digitVal_digitChar (d : Nat) (h : d < 10) : digitVal (Nat.digitChar d) = d := by
  interval_cases d <;> decide

theorem digitChar_isDigit (d : Nat) (h : d < 10) : (Nat.digitChar d).isDigit = true := by
  interval_cases d <;> decide

theorem natDecAux_zero (fuel : Nat) : natDecAux fuel 0 = [] := by
  cases fuel <;> rfl

theorem natDecAux_foldl (fuel : Nat) : ∀ n acc, n ≤ fuel → n ≠ 0 →
    (natDecAux fuel n).foldl (fun acc c => acc * 10 + digitVal c) acc
      = acc * 10 ^ (natDecAux fuel n).length + n := by
  induction fuel with
  | zero => intro n acc hle hne; omega
  | succ f ih =>
    intro n acc hle hne
    match n, hne with
    | m + 1, _ =>
      rw [show natDecAux (f + 1) (m + 1)
            = natDecAux f ((m + 1) / 10) ++ [Nat.digitChar ((m + 1) % 10)] from rfl]
      rw [List.foldl_append, List.length_append]
      have hmod : (m + 1) % 10 < 10 := Nat.mod_lt _ (by omega)
      by_cases hq : (m + 1) / 10 = 0
      · rw [hq, natDecAux_zero]
        simp only [List.foldl_nil, List.foldl_cons, List.length_nil, List.length_cons,
          List.length_nil]
        rw [digitVal_digitChar _ hmod]
        have := Nat.div_add_mod (m + 1) 10
        rw [hq] at this
        simp only [Nat.mul_zero, Nat.zero_add] at this
        rw [this]
        ring
      · have hqle : (m + 1) / 10 ≤ f := by
          have := Nat.div_lt_self (Nat.succ_pos m) (by omega : 1 < 10)
          omega
        rw [ih _ acc hqle hq]
        simp only [List.foldl_cons, List.foldl_nil, List.length_cons, List.length_nil]
        rw [digitVal_digitChar _ hmod]
        have := Nat.div_add_mod (m + 1) 10
        set L := (natDecAux f ((m + 1) / 10)).length
        calc (acc * 10 ^ L + (m + 1) / 10) * 10 + (m + 1) % 10
            = acc * 10 ^ (L + 1) + (10 * ((m + 1) / 10) + (m + 1) % 10) := by ring
          _ = acc * 10 ^ (L + 1) + (m + 1) := by rw [this]

/-- `decodeDecimal` inverts `natDecimal`. -/
theorem decodeDecimal_natDecimal (n : Nat) : decodeDecimal (natDecimal n) = n := by
  by_cases h : n = 0
  · subst h; decide
  · unfold natDecimal decodeDecimal
    simp only [h, if_false]
    show (natDecAux n n).foldl (fun acc c => acc * 10 + digitVal c) 0 = n
    rw [natDecAux_foldl n n 0 (Nat.le_refl n) h]
    simp

/-- Every character `natDecAux` emits is a decimal digit. -/
theorem mem_natDecAux_isDigit (fuel : Nat) : ∀ n c, c ∈ natDecAux fuel n → c.isDigit = true := by
  induction fuel with
  | zero => intro n c hc; simp [natDecAux] at hc
  | succ f ih =>
    intro n c hc
    match n with
    | 0 => simp [natDecAux] at hc
    | m + 1 =>
      simp only [natDecAux, List.mem_append, List.mem_singleton] at hc
      rcases hc with hc | hc
      · exact ih _ c hc
      · subst hc
        exact digitChar_isDigit _ (Nat.mod_lt _ (by omega))

/-- A decimal id is never the literal id `"welcome"`. -/
theorem natDecimal_ne_welcome (n : Nat) : natDecimal n ≠ "welcome" := by
  intro h
  unfold natDecimal at h
  by_cases hz : n = 0
  · rw [hz] at h; exact absurd h (by decide)
  · simp only [hz, if_false] at h
    have hdata : natDecAux n n = "welcome".data := congrArg String.data h
    have hw : 'w' ∈ natDecAux n n := by rw [hdata]; decide
    have := mem_natDecAux_isDigit n n 'w' hw
    exact absurd this (by decide)

/-- An ASCII whitespace character (the JS `trim` whitespace class,
restricted to the characters that can occur in this model). -/
def isWsChar (c : Char) : Bool := c == ' ' || c == '\t' || c == '\n' || c == '\r'

/-- Drops leading whitespace characters. -/
def dropLeadingWs : List Char → List Char
  | [] => []
  | c :: cs => if isWsChar c then dropLeadingWs cs else c :: cs

/-- JS `s.trim()`: strips whitespace from both ends. Defined on the
character list so the kernel can evaluate it. -/
def strTrim (s : String) : String :=
  String.mk ((dropLeadingWs (dropLeadingWs s.data).reverse).reverse)

/-- One message of the chat list, with the fields the chat screen
constructs; `mode`, `confidence` and `language` are carried opaquely. -/
structure ChatMsg where
  id : String
  text : String
  isBot : Bool
  timestamp : Nat
  language : Option String := none
  mode : Option String := none
  confidence : Option String := none
  isError : Bool := false
deriving DecidableEq, Repr

/-- The success payload of a send-message response:
`{ response, session_id, language, mode, confidence }`. -/
structure SendResponse where
  response : String
  session_id : String
  language : String
  mode : String
  confidence : String
deriving DecidableEq, Repr

/-- Outcome of an awaited `apiService.sendMessage` call. -/
inductive SendOutcome where
  | ok (r : SendResponse)
  | err
deriving DecidableEq, Repr

/-- The chat screen's state cells that the send flow reads or writes:
the message list, the nullable session id, and the loading flag. -/
structure ChatState where
  messages : List ChatMsg
  sessionId : Option String
  loading : Bool
deriving DecidableEq, Repr

/-- The synthetic welcome entry the mount effect seeds the list with
(its timestamp, a `new Date()` at mount, is abstracted as 0). -/
def welcomeMessage : ChatMsg :=
  { id := "welcome"
    text := "Welcome to Konsultabot! I'm your AI assistant for EVSU Dulag campus. How can I help you today?"
    isBot := true
    timestamp := 0 }

/-- Chat state right after the mount effect ran. -/
def chatInit : ChatState :=
  { messages := [welcomeMessage], sessionId := none, loading := false }

/-- The user message appended optimistically at send time `sendNow`
(a `Date.now()` value). -/
def userMessage (inputText : String) (sendNow : Nat) : ChatMsg :=
  { id := natDecimal sendNow
    text := strTrim inputText
    isBot := false
    timestamp := sendNow }

/-- The bot message built from a successful response at time `respNow`
(id is `Date.now() + 1` evaluated then). -/
def botMessage (r : SendResponse) (respNow : Nat) : ChatMsg :=
  { id := natDecimal (respNow + 1)
    text := r.response
    isBot := true
    timestamp := respNow
    language := some r.language
    mode := some r.mode
    confidence := some r.confidence }

/-- The synthetic error message appended when the call fails. -/
def errorMessage (respNow : Nat) : ChatMsg :=
  { id := natDecimal (respNow + 1)
    text := "Sorry, I encountered an error. Please try again."
    isBot := true
    timestamp := respNow
    isError := true }

/-- The optimistic update: append the user message and raise the loading
flag, before the network response is received. -/
def optimisticAppend (st : ChatState) (inputText : String) (sendNow : Nat) : ChatState :=
  { st with messages := st.messages ++ [userMessage inputText sendNow], loading := true }

/-- `sendMessage` of the chat screen: bail out on whitespace-only input;
otherwise append the user message optimistically, await the call, then on
success capture the session id if it is still falsy and append the bot
message, and on failure append the synthetic error message; the loading
flag is finally lowered. `sendNow` and `respNow` are the `Date.now()`
values at dispatch and at resolution. -/
def sendMessage (st : ChatState) (inputText lang : String) (sendNow respNow : Nat)
    (outcome : SendOutcome) : ChatState :=
  let _ := lang
  if (strTrim inputText).isEmpty then st
  else
    let st1 := optimisticAppend st inputText sendNow
    match outcome with
    | .ok r =>
      let st2 := if jsTruthy st1.sessionId then st1 else { st1 with sessionId := some r.session_id }
      { st2 with messages := st2.messages ++ [botMessage r respNow], loading := false }
    | .err =>
      { st1 with messages := st1.messages ++ [errorMessage respNow], loading := false }

/-- The request body `ApiService.sendMessage` posts: message and language
always, `session_id` only when the passed id is truthy. -/
structure SendPayload where
  message : String
  language : String
  session_id : Option String
deriving DecidableEq, Repr

/-- Builds the payload of one `ApiService.sendMessage(message, language,
sessionId)` call. -/
def apiSendMessagePayload (message language : String) (sessionId : Option String) : SendPayload :=
  { message := message
    language := language
    session_id := if jsTruthy sessionId then sessionId else none }

/-- One user-driven send interaction: the typed input, the selected
language, the two clock readings, and the network outcome. -/
structure ChatStep where
  input : String
  lang : String
  sendNow : Nat
  respNow : Nat
  outcome : SendOutcome
deriving DecidableEq, Repr

/-- Applies one interaction to the chat state. -/
def chatStep (st : ChatState) (s : ChatStep) : ChatState :=
  sendMessage st s.input s.lang s.sendNow s.respNow s.outcome

/-- The payload the interaction dispatches, if any: the chat screen calls
`apiService.sendMessage(strTrim inputText(), language, sessionId)` with the
session id read from the state before the call. -/
def stepPayload (st : ChatState) (s : ChatStep) : Option SendPayload :=
  if (strTrim s.input).isEmpty then none
  else some (apiSendMessagePayload (strTrim s.input) s.lang st.sessionId)

/-- Chat state after a whole conversation. -/
def runState : ChatState → List ChatStep → ChatState
  | st, [] => st
  | st, s :: rest => runState (chatStep st s) rest

/-- The payloads a whole conversation dispatches, in order. -/
def runPayloads : ChatState → List ChatStep → List SendPayload
  | _, [] => []
  | st, s :: rest => (stepPayload st s).toList ++ runPayloads (chatStep st s) rest

/-- An interaction dispatches a call iff its trimmed input is non-empty. -/
def effectiveStep (s : ChatStep) : Bool := !(strTrim s.input).isEmpty

/-- The `session_id` of the first successful response of the
conversation (skipping interactions that dispatch no call), if any. -/
def firstSuccessId : List ChatStep → Option String
  | [] => none
  | s :: rest =>
    if effectiveStep s then
      match s.outcome with
      | .ok r => some r.session_id
      | .err => firstSuccessId rest
    else firstSuccessId rest

/-- Number of calls a conversation dispatches. -/
def effCalls : List ChatStep → Nat
  | [] => 0
  | s :: rest => (if effectiveStep s then 1 else 0) + effCalls rest

/-- Number of calls dispatched up to and including the first successful
one. -/
def preCalls : List ChatStep → Nat
  | [] => 0
  | s :: rest =>
    if effectiveStep s then
      match s.outcome with
      | .ok _ => 1
      | .err => 1 + preCalls rest
    else preCalls rest

/-- Number of calls dispatched strictly after the first successful one. -/
def postCalls : List ChatStep → Nat
  | [] => 0
  | s :: rest =>
    if effectiveStep s then
      match s.outcome with
      | .ok _ => effCalls rest
      | .err => postCalls rest
    else postCalls rest

/-- The messages one interaction appends. -/
def stepMsgs (s : ChatStep) : List ChatMsg :=
  if effectiveStep s then
    userMessage s.input s.sendNow ::
      [match s.outcome with
       | .ok r => botMessage r s.respNow
       | .err => errorMessage s.respNow]
  else []

/-- The messages a conversation appends, in order. -/
def msgsOfSteps : List ChatStep → List ChatMsg
  | [] => []
  | s :: rest => stepMsgs s ++ msgsOfSteps rest

/-- The `Date.now()`-derived numbers the appended message ids print, in
list order: the send time of each dispatched call, then its response
time plus one. -/
def idNums : List ChatStep → List Nat
  | [] => []
  | s :: rest =>
    if effectiveStep s then s.sendNow :: (s.respNow + 1) :: idNums rest
    else idNums rest

/-- One interaction appends exactly `stepMsgs` at the tail. -/
theorem chatStep_messages (st : ChatState) (s : ChatStep) :
    (chatStep st s).messages = st.messages ++ stepMsgs s := by
  unfold chatStep sendMessage stepMsgs effectiveStep optimisticAppend
  by_cases he : (strTrim s.input).isEmpty
  · simp [he]
  · cases ho : s.outcome with
    | ok r =>
      by_cases hs : jsTruthy st.sessionId <;> simp [he, ho, hs]
    | err => simp [he, ho]

/-- One interaction never erases a session id: it keeps a truthy id
unchanged, and from a falsy id it can only move to the first response's
id. -/
theorem chatStep_sessionId_truthy (st : ChatState) (s : ChatStep)
    (h : jsTruthy st.sessionId = true) :
    (chatStep st s).sessionId = st.sessionId := by
  unfold chatStep sendMessage optimisticAppend
  by_cases he : (strTrim s.input).isEmpty
  · simp [he]
  · cases ho : s.outcome with
    | ok r => simp [he, ho, h]
    | err => simp [he, ho]

/-- Messages after a conversation: the starting list followed by the
appended messages. -/
theorem runState_messages (steps : List ChatStep) : ∀ st : ChatState,
    (runState st steps).messages = st.messages ++ msgsOfSteps steps := by
  induction steps with
  | nil => intro st; simp [runState, msgsOfSteps]
  | cons s rest ih =>
    intro st
    show (runState (chatStep st s) rest).messages = _
    rw [ih (chatStep st s), chatStep_messages, msgsOfSteps, List.append_assoc]

/-- The appended messages' ids are exactly the decimal prints of
`idNums`. -/
theorem msgsOfSteps_ids (steps : List ChatStep) :
    (msgsOfSteps steps).map ChatMsg.id = (idNums steps).map natDecimal := by
  induction steps with
  | nil => rfl
  | cons s rest ih =>
    unfold msgsOfSteps stepMsgs idNums
    by_cases he : effectiveStep s
    · cases ho : s.outcome with
      | ok r => simp [he, ho, ih, userMessage, botMessage]
      | err => simp [he, ho, ih, userMessage, errorMessage]
    · simp [he, ih]

/-- An interaction with whitespace-only input changes nothing. -/
theorem chatStep_skip (st : ChatState) (s : ChatStep) (h : effectiveStep s = false) :
    chatStep st s = st := by
  unfold chatStep sendMessage
  unfold effectiveStep at h
  simp only [Bool.not_eq_false'] at h
  simp [h]

/-- From a falsy session id, a dispatched successful interaction stores
the response's session id. -/
theorem chatStep_sessionId_capture (st : ChatState) (s : ChatStep) (r : SendResponse)
    (hn : jsTruthy st.sessionId = false) (he : effectiveStep s = true)
    (ho : s.outcome = .ok r) :
    (chatStep st s).sessionId = some r.session_id := by
  unfold chatStep sendMessage optimisticAppend
  unfold effectiveStep at he
  simp only [Bool.not_eq_true'] at he
  simp [he, ho, hn]

/-- A dispatched failing interaction leaves the session id unchanged. -/
theorem chatStep_sessionId_err (st : ChatState) (s : ChatStep)
    (ho : s.outcome = .err) :
    (chatStep st s).sessionId = st.sessionId := by
  unfold chatStep sendMessage optimisticAppend
  by_cases he : (strTrim s.input).isEmpty <;> simp [he, ho]

/-- The server reported a non-empty session id on every successful
response of the interaction (vacuous for failures; an empty id would be
falsy and the screen would treat it as unset). -/
def okIdNonempty (s : ChatStep) : Bool :=
  match s.outcome with
  | .ok r => !r.session_id.isEmpty
  | .err => true

/-- A dispatched interaction's payload. -/
theorem stepPayload_eff (st : ChatState) (s : ChatStep)
    (he : (strTrim s.input).isEmpty = false) :
    stepPayload st s = some (apiSendMessagePayload (strTrim s.input) s.lang st.sessionId) := by
  unfold stepPayload
  simp [he]

/-- A skipped interaction dispatches nothing. -/
theorem stepPayload_skip (st : ChatState) (s : ChatStep)
    (he : (strTrim s.input).isEmpty = true) :
    stepPayload st s = none := by
  unfold stepPayload
  simp [he]

/-- Once the session id holds a truthy value, a conversation never
changes it, and every dispatched call includes exactly that id. -/
theorem runChat_locked (steps : List ChatStep) : ∀ st : ChatState, ∀ v : String,
    st.sessionId = some v → v.isEmpty = false →
    (runState st steps).sessionId = some v ∧
    (runPayloads st steps).map SendPayload.session_id
      = List.replicate (effCalls steps) (some v) := by
  induction steps with
  | nil => intro st v hv _; exact ⟨hv, rfl⟩
  | cons s rest ih =>
    intro st v hv hne
    have htr : jsTruthy st.sessionId = true := by rw [hv]; simp [jsTruthy, hne]
    have hkeep : (chatStep st s).sessionId = some v := by
      rw [chatStep_sessionId_truthy st s htr, hv]
    obtain ⟨ih1, ih2⟩ := ih (chatStep st s) v hkeep hne
    refine ⟨ih1, ?_⟩
    show ((stepPayload st s).toList ++ runPayloads (chatStep st s) rest).map _ = _
    by_cases he : (strTrim s.input).isEmpty
    · rw [stepPayload_skip st s he]
      have heff : effectiveStep s = false := by simp [effectiveStep, he]
      simp [effCalls, heff, ih2]
    · have he' : (strTrim s.input).isEmpty = false := by simpa using he
      rw [stepPayload_eff st s he']
      have heff : effectiveStep s = true := by simp [effectiveStep, he']
      have hpay : (apiSendMessagePayload (strTrim s.input) s.lang st.sessionId).session_id
          = some v := by
        unfold apiSendMessagePayload
        rw [hv]
        simp [jsTruthy, hne]
      simp only [Option.toList_some, List.map_append, List.map_cons, List.map_nil,
        List.singleton_append]
      rw [ih2, hpay]
      simp [effCalls, heff, List.replicate_add]

/-- From an unset session id, a conversation ends with the first
successful response's id (none if there is none), sends no id on every
call up to and including the first successful one, and sends exactly
that id on every later call. -/
theorem runChat_fromNone (steps : List ChatStep) (hids : ∀ s ∈ steps, okIdNonempty s = true) :
    ∀ st : ChatState, st.sessionId = none →
    (runState st steps).sessionId = firstSuccessId steps ∧
    (runPayloads st steps).map SendPayload.session_id
      = List.replicate (preCalls steps) none
        ++ List.replicate (postCalls steps) (firstSuccessId steps) := by
  induction steps with
  | nil => intro st hv; exact ⟨hv, rfl⟩
  | cons s rest ih =>
    intro st hv
    have hids' : ∀ x ∈ rest, okIdNonempty x = true := fun x hx => hids x (List.mem_cons_of_mem s hx)
    have hfalsy : jsTruthy st.sessionId = false := by rw [hv]; rfl
    by_cases he : effectiveStep s
    · cases ho : s.outcome with
      | ok r =>
        have hrne : r.session_id.isEmpty = false := by
          have := hids s (List.mem_cons_self s rest)
          unfold okIdNonempty at this
          rw [ho] at this
          simpa using this
        have hcap := chatStep_sessionId_capture st s r hfalsy he ho
        obtain ⟨h1, h2⟩ := runChat_locked rest (chatStep st s) r.session_id hcap hrne
        have hfs : firstSuccessId (s :: rest) = some r.session_id := by
          unfold firstSuccessId; rw [he, ho]; simp
        constructor
        · show (runState (chatStep st s) rest).sessionId = _
          rw [h1, hfs]
        · show ((stepPayload st s).toList ++ runPayloads (chatStep st s) rest).map _ = _
          have he' : (strTrim s.input).isEmpty = false := by
            unfold effectiveStep at he
            simpa using he
          rw [stepPayload_eff st s he']
          have hpay : (apiSendMessagePayload (strTrim s.input) s.lang st.sessionId).session_id
              = none := by
            unfold apiSendMessagePayload
            rw [hv]
            rfl
          simp only [Option.toList_some, List.map_append, List.map_cons, List.map_nil,
            List.singleton_append]
          rw [h2, hfs, hpay]
          have hpre : preCalls (s :: rest) = 1 := by
            unfold preCalls; rw [he, ho]; simp
          have hpost : postCalls (s :: rest) = effCalls rest := by
            unfold postCalls; rw [he, ho]; simp
          rw [hpre, hpost]
          rfl
      | err =>
        have hkeep : (chatStep st s).sessionId = none := by
          rw [chatStep_sessionId_err st s ho, hv]
        obtain ⟨h1, h2⟩ := ih hids' (chatStep st s) hkeep
        have hfs : firstSuccessId (s :: rest) = firstSuccessId rest := by
          simp [firstSuccessId, he, ho]
        constructor
        · show (runState (chatStep st s) rest).sessionId = _
          rw [h1, hfs]
        · show ((stepPayload st s).toList ++ runPayloads (chatStep st s) rest).map _ = _
          have he' : (strTrim s.input).isEmpty = false := by
            unfold effectiveStep at he
            simpa using he
          rw [stepPayload_eff st s he']
          have hpay : (apiSendMessagePayload (strTrim s.input) s.lang st.sessionId).session_id
              = none := by
            unfold apiSendMessagePayload
            rw [hv]
            rfl
          simp only [Option.toList_some, List.map_append, List.map_cons, List.map_nil,
            List.singleton_append]
          rw [h2, hfs, hpay]
          have hpre : preCalls (s :: rest) = 1 + preCalls rest := by
            simp [preCalls, he, ho]
          have hpost : postCalls (s :: rest) = postCalls rest := by
            simp [postCalls, he, ho]
          rw [hpre, hpost, List.replicate_add, List.replicate_one]
          simp
    · have hstep := chatStep_skip st s (by simpa using he)
      obtain ⟨h1, h2⟩ := ih hids' st hv
      have hfs : firstSuccessId (s :: rest) = firstSuccessId rest := by
        simp [firstSuccessId, he]
      have hpre : preCalls (s :: rest) = preCalls rest := by
        simp [preCalls, he]
      have hpost : postCalls (s :: rest) = postCalls rest := by
        simp [postCalls, he]
      constructor
      · show (runState (chatStep st s) rest).sessionId = _
        rw [hstep, h1, hfs]
      · show ((stepPayload st s).toList ++ runPayloads (chatStep st s) rest).map _ = _
        have he' : (strTrim s.input).isEmpty = true := by
          unfold effectiveStep at he
          simpa using he
        rw [stepPayload_skip st s he']
        simp only [Option.toList_none, List.nil_append]
        rw [hstep, h2, hfs, hpre, hpost]

/-- Claim C4: within one conversation the session id starts null; the
final id is exactly the first successful response's `session_id` (still
null when no call succeeded), so it is set once and never modified; the
calls dispatched up to and including the first successful one send the
id as omitted, and every later call includes the captured id unchanged —
assuming the server reports non-empty session ids (an empty id is falsy
in JS and would be treated as unset). -/
theorem chat_session_id_lifecycle (steps : List ChatStep)
    (hids : ∀ s ∈ steps, okIdNonempty s = true) :
    chatInit.sessionId = none ∧
    (runState chatInit steps).sessionId = firstSuccessId steps ∧
    (runPayloads chatInit steps).map SendPayload.session_id
      = List.replicate (preCalls steps) none
        ++ List.replicate (postCalls steps) (firstSuccessId steps) := by
  obtain ⟨h1, h2⟩ := runChat_fromNone steps hids chatInit rfl
  exact ⟨rfl, h1, h2⟩

/-- Witness for C4: a three-turn conversation (failure, then success
capturing `"s1"`, then another turn sending `"s1"`). -/
theorem chat_session_id_lifecycle_witness :
    (∀ s ∈ [ChatStep.mk "hi" "english" 10 11 .err,
            ChatStep.mk "hello" "english" 14 15 (.ok ⟨"hey", "s1", "english", "online", "0.9"⟩),
            ChatStep.mk "more" "english" 18 19 (.ok ⟨"sure", "s2", "english", "online", "0.8"⟩)],
        okIdNonempty s = true) ∧
    (runState chatInit
        [ChatStep.mk "hi" "english" 10 11 .err,
         ChatStep.mk "hello" "english" 14 15 (.ok ⟨"hey", "s1", "english", "online", "0.9"⟩),
         ChatStep.mk "more" "english" 18 19 (.ok ⟨"sure", "s2", "english", "online", "0.8"⟩)]).sessionId
      = some "s1" ∧
    (runPayloads chatInit
        [ChatStep.mk "hi" "english" 10 11 .err,
         ChatStep.mk "hello" "english" 14 15 (.ok ⟨"hey", "s1", "english", "online", "0.9"⟩),
         ChatStep.mk "more" "english" 18 19 (.ok ⟨"sure", "s2", "english", "online", "0.8"⟩)]).map
        SendPayload.session_id
      = [none, none, some "s1"] := by
  refine ⟨by decide, ?_, ?_⟩
  · have h := (chat_session_id_lifecycle
      [ChatStep.mk "hi" "english" 10 11 .err,
       ChatStep.mk "hello" "english" 14 15 (.ok ⟨"hey", "s1", "english", "online", "0.9"⟩),
       ChatStep.mk "more" "english" 18 19 (.ok ⟨"sure", "s2", "english", "online", "0.8"⟩)]
      (by decide)).2.1
    rw [h]; decide
  · have h := (chat_session_id_lifecycle
      [ChatStep.mk "hi" "english" 10 11 .err,
       ChatStep.mk "hello" "english" 14 15 (.ok ⟨"hey", "s1", "english", "online", "0.9"⟩),
       ChatStep.mk "more" "english" 18 19 (.ok ⟨"sure", "s2", "english", "online", "0.8"⟩)]
      (by decide)).2.2
    rw [h]; decide

/-- Claim C5: for every input that is non-empty after trimming, the send
flow appends the user's message to the list in the optimistic update,
which happens before the network outcome is known; whatever that outcome
turns out to be, the final list extends the optimistic one — with the
returned bot message on success, with the synthetic error message on
failure. -/
theorem send_appends_user_before_response (st : ChatState) (inputText lang : String)
    (sendNow respNow : Nat) (h : (strTrim inputText).isEmpty = false) :
    (optimisticAppend st inputText sendNow).messages
      = st.messages ++ [userMessage inputText sendNow] ∧
    (∀ r : SendResponse,
      (sendMessage st inputText lang sendNow respNow (.ok r)).messages
        = (optimisticAppend st inputText sendNow).messages ++ [botMessage r respNow]) ∧
    (sendMessage st inputText lang sendNow respNow .err).messages
      = (optimisticAppend st inputText sendNow).messages ++ [errorMessage respNow] := by
  refine ⟨rfl, ?_, ?_⟩
  · intro r
    unfold sendMessage
    by_cases hs : jsTruthy st.sessionId <;> simp [h, hs, optimisticAppend]
  · unfold sendMessage
    simp [h, optimisticAppend]

/-- Witness for C5 at a concrete input. -/
theorem send_appends_user_before_response_witness :
    (strTrim " hi ").isEmpty = false ∧
    (optimisticAppend chatInit " hi " 10).messages
      = chatInit.messages ++ [userMessage " hi " 10] ∧
    (sendMessage chatInit " hi " "english" 10 11 .err).messages
      = (optimisticAppend chatInit " hi " 10).messages ++ [errorMessage 11] :=
  ⟨by decide,
   (send_appends_user_before_response chatInit " hi " "english" 10 11 (by decide)).1,
   (send_appends_user_before_response chatInit " hi " "english" 10 11 (by decide)).2.2⟩

/-- The claimed uniqueness of message ids fails on a legal timing trace:
two sends in adjacent milliseconds where the first response arrives in
the send's own millisecond. First turn: send at 0 (user id `"0"`),
response at 0 (bot id `"1"`); second turn: send at 1 (user id `"1"` —
duplicate), response at 1 (bot id `"2"`). -/
def idClashSteps : List ChatStep :=
  [⟨"a", "english", 0, 0, .ok ⟨"r1", "s1", "english", "online", "0.9"⟩⟩,
   ⟨"b", "english", 1, 1, .ok ⟨"r2", "s1", "english", "online", "0.9"⟩⟩]

/-- Claim C9 counterexample: on the trace `idClashSteps` — times move
forward (each send happens no earlier than the previous response) — the
message list ends with ids `["welcome", "0", "1", "1", "2"]`, which are
not pairwise distinct, because ids are derived from `Date.now()` and
`Date.now() + 1` readings that can collide across turns. -/
theorem chat_unique_ids_cex :
    ((runState chatInit idClashSteps).messages.map ChatMsg.id
      = ["welcome", "0", "1", "1", "2"]) ∧
    ¬ ((runState chatInit idClashSteps).messages.map ChatMsg.id).Nodup := by
  constructor
  · decide
  · intro h
    rw [show (runState chatInit idClashSteps).messages.map ChatMsg.id
          = ["welcome", "0", "1", "1", "2"] by decide] at h
    simp at h

/-- The clock discipline under which the id scheme is collision-free:
every dispatched call starts strictly after the accumulator `lo`, its
response does not precede it, and the next call starts after the
response's successor (i.e. at least 2 ms after the previous response);
interactions that dispatch nothing are unconstrained. -/
def strictIds (lo : Nat) : List ChatStep → Bool
  | [] => true
  | s :: rest =>
    if effectiveStep s then
      decide (lo < s.sendNow) && decide (s.sendNow ≤ s.respNow) && strictIds (s.respNow + 1) rest
    else strictIds lo rest

/-- Under the clock discipline the generated id numbers are strictly
increasing and all above the accumulator. -/
theorem idNums_sorted (steps : List ChatStep) : ∀ lo : Nat, strictIds lo steps = true →
    List.Pairwise (fun a b => a < b) (idNums steps) ∧ ∀ x ∈ idNums steps, lo < x := by
  induction steps with
  | nil => intro lo _; exact ⟨List.Pairwise.nil, by intro x hx; simp [idNums] at hx⟩
  | cons s rest ih =>
    intro lo hlo
    by_cases he : effectiveStep s
    · have hlo' : (decide (lo < s.sendNow) && decide (s.sendNow ≤ s.respNow)
          && strictIds (s.respNow + 1) rest) = true := by
        rw [show strictIds lo (s :: rest)
              = if effectiveStep s then
                  decide (lo < s.sendNow) && decide (s.sendNow ≤ s.respNow)
                    && strictIds (s.respNow + 1) rest
                else strictIds lo rest from rfl, he] at hlo
        simpa using hlo
      simp only [Bool.and_eq_true, decide_eq_true_eq] at hlo'
      obtain ⟨⟨h1, h2⟩, h3⟩ := hlo'
      obtain ⟨ihp, ihb⟩ := ih (s.respNow + 1) h3
      have hnums : idNums (s :: rest) = s.sendNow :: (s.respNow + 1) :: idNums rest := by
        simp [idNums, he]
      rw [hnums]
      constructor
      · refine List.Pairwise.cons ?_ (List.Pairwise.cons ?_ ihp)
        · intro b hb
          rcases List.mem_cons.mp hb with hb | hb
          · omega
          · have := ihb b hb; omega
        · intro b hb
          exact ihb b hb
      · intro x hx
        rcases List.mem_cons.mp hx with hx | hx
        · omega
        · rcases List.mem_cons.mp hx with hx | hx
          · omega
          · have := ihb x hx; omega
    · have hskip : idNums (s :: rest) = idNums rest := by simp [idNums, he]
      have hlo' : strictIds lo rest = true := by
        rw [show strictIds lo (s :: rest)
              = if effectiveStep s then
                  decide (lo < s.sendNow) && decide (s.sendNow ≤ s.respNow)
                    && strictIds (s.respNow + 1) rest
                else strictIds lo rest from rfl] at hlo
        simpa [he] using hlo
      rw [hskip]
      exact ih lo hlo'

/-- Decimal prints of a duplicate-free number list are duplicate-free
(decoding is a left inverse of printing). -/
theorem natDecimal_map_nodup (l : List Nat) (h : l.Nodup) :
    (l.map natDecimal).Nodup := by
  have hdec : (l.map natDecimal).map decodeDecimal = l := by
    rw [List.map_map]
    have : ∀ a ∈ l, (decodeDecimal ∘ natDecimal) a = id a := by
      intro a _
      simp [Function.comp, decodeDecimal_natDecimal]
    rw [List.map_congr_left this, List.map_id]
  exact List.Nodup.of_map decodeDecimal (by rw [hdec]; exact h)

/-- Claim C9 (amended): the list is seeded with exactly the one synthetic
welcome entry; every interaction only appends at the tail (the previous
list is always a prefix of the new one); and all message ids are distinct
provided the `Date.now()` readings obey the `strictIds` discipline —
in particular each send must occur at least 2 ms after the previous
response, which the code does not enforce. -/
theorem chat_message_list_invariants (steps : List ChatStep)
    (h : strictIds 0 steps = true) :
    chatInit.messages = [welcomeMessage] ∧
    (∀ (st : ChatState) (s : ChatStep), ∃ tail, (chatStep st s).messages = st.messages ++ tail) ∧
    ((runState chatInit steps).messages.map ChatMsg.id).Nodup := by
  refine ⟨rfl, fun st s => ⟨stepMsgs s, chatStep_messages st s⟩, ?_⟩
  rw [runState_messages]
  show (((welcomeMessage :: []) ++ msgsOfSteps steps).map ChatMsg.id).Nodup
  rw [List.singleton_append, List.map_cons, msgsOfSteps_ids]
  obtain ⟨hpair, _⟩ := idNums_sorted steps 0 h
  have hnd : (idNums steps).Nodup := List.Pairwise.imp Nat.ne_of_lt hpair
  refine List.nodup_cons.mpr ⟨?_, natDecimal_map_nodup _ hnd⟩
  intro hmem
  obtain ⟨n, _, hn⟩ := List.mem_map.mp hmem
  exact natDecimal_ne_welcome n (by simpa [welcomeMessage] using hn)

/-- Witness for the amended C9: a two-turn conversation with compliant
clock readings; the resulting ids are pairwise distinct. -/
theorem chat_message_list_invariants_witness :
    strictIds 0
      [ChatStep.mk "hi" "english" 5 6 (.ok ⟨"yo", "s1", "english", "online", "0.9"⟩),
       ChatStep.mk "again" "english" 9 12 .err] = true ∧
    ((runState chatInit
        [ChatStep.mk "hi" "english" 5 6 (.ok ⟨"yo", "s1", "english", "online", "0.9"⟩),
         ChatStep.mk "again" "english" 9 12 .err]).messages.map ChatMsg.id).Nodup :=
  ⟨by decide,
   (chat_message_list_invariants
      [ChatStep.mk "hi" "english" 5 6 (.ok ⟨"yo", "s1", "english", "online", "0.9"⟩),
       ChatStep.mk "again" "english" 9 12 .err] (by decide)).2.2⟩

/-- The profile validation failed for a reason other than a 401
response: a network error with no response, a rejected call with a
non-401 status, or a resolved non-200 status. -/
def nonUnauthorizedFailure : HttpOutcome → Bool
  | .success status => status != 200
  | .failure none => true
  | .failure (some r) => r.status != 401

/-- Claim C10: when bootstrap finds both stored values but validation
fails for any reason other than a 401 response, the API service's
in-memory auth token still holds the stale stored token after bootstrap
completes — it was assigned before validation and only the 401 branch of
the response interceptor resets it — even though session state is
unauthenticated and the credential store has been cleared; by contrast,
a 401 failure does reset it. -/
theorem bootstrap_stale_api_token (store : CredStore) (env : BootEnv)
    (t u : String) (ht : store.authToken = some t) (hu : store.userData = some u)
    (htne : t.isEmpty = false) (hune : u.isEmpty = false)
    (hfail : nonUnauthorizedFailure env.profile = true) :
    (bootstrap store env).apiToken = some t ∧
    (bootstrap store env).session.user = none ∧
    (bootstrap store env).session.token = none ∧
    (bootstrap store env).store = emptyStore ∧
    (∀ r : RespInfo, r.status = 401 →
      (bootstrap store { env with profile := .failure (some r) }).apiToken = none) := by
  have h401 : ∀ env' : BootEnv, ∀ r : RespInfo, env'.profile = .failure (some r) →
      r.status = 401 → (bootstrap store env').apiToken = none := by
    intro env' r hpr h4
    unfold bootstrap loadStoredAuth initialWorld
    rw [ht, hu]
    simp only [htne, hune]
    simp [validateAndSetAuth, hpr, interceptResult, clearStoredAuth, h4]
  refine ⟨?_, ?_, ?_, ?_, fun r h4 => h401 _ r rfl h4⟩ <;>
  · unfold bootstrap loadStoredAuth initialWorld
    rw [ht, hu]
    simp only [htne, hune]
    cases hp : env.profile with
    | success status =>
      rw [hp] at hfail
      have hs : status ≠ 200 := by simpa [nonUnauthorizedFailure] using hfail
      simp [validateAndSetAuth, hp, interceptResult, clearStoredAuth, emptyStore, hs]
    | failure r =>
      cases r with
      | none => simp [validateAndSetAuth, hp, interceptResult, clearStoredAuth, emptyStore]
      | some ri =>
        rw [hp] at hfail
        have h4 : ri.status ≠ 401 := by simpa [nonUnauthorizedFailure] using hfail
        simp [validateAndSetAuth, hp, interceptResult, clearStoredAuth, emptyStore, h4]

/-- Witness for C10: a network error (no response) during validation
leaves the stale token `"tok"` on the API service while the session is
unauthenticated and the store is empty. -/
theorem bootstrap_stale_api_token_witness :
    (nonUnauthorizedFailure (BootEnv.mk (.failure none) none).profile = true) ∧
    ((bootstrap ⟨some "tok", some "usr"⟩ ⟨.failure none, none⟩).apiToken = some "tok" ∧
     (bootstrap ⟨some "tok", some "usr"⟩ ⟨.failure none, none⟩).session.user = none ∧
     (bootstrap ⟨some "tok", some "usr"⟩ ⟨.failure none, none⟩).session.token = none ∧
     (bootstrap ⟨some "tok", some "usr"⟩ ⟨.failure none, none⟩).store = emptyStore) :=
  ⟨rfl,
   let h := bootstrap_stale_api_token ⟨some "tok", some "usr"⟩ ⟨.failure none, none⟩
     "tok" "usr" rfl rfl rfl rfl rfl
   ⟨h.1, h.2.1, h.2.2.1, h.2.2.2.1⟩⟩

end Konsultabot
